import Mathlib

/-!
Shallow embedding of the soc-onboarding backend (FastAPI + Cosmos/Postgres
customer stores).  Python dicts become Lean structures, the Cosmos container
becomes a `List Customer`, the in-memory OAuth state dict becomes a
`List (String × String)` with dict semantics, and every network response is an
explicit parameter (status code plus the fields of the body that the code
reads).  `hashlib.sha256(...).hexdigest()` is an abstract parameter
`sha : String → String`; `secrets.token_urlsafe`, `uuid4()` and
`datetime.utcnow()` are explicit string parameters, since the code only
concatenates and stores them.  A raised exception that escapes a handler is
modelled as `ApiError.exn`; `fastapi.HTTPException` as `ApiError.http`.
-/

namespace Soc

/-- Cosmos customer document, exactly the dict built in
`CosmosService.create_customer` (cosmos_service.py lines 50-64). -/
structure Customer where
  id : String
  tenant_id : String
  workspace_id : String
  workspace_name : String
  subscription_id : String
  resource_group : String
  api_key_hash : String
  callback_url : Option String
  ai_analysis_enabled : Bool
  status : String
  created_at : String
  updated_at : String
  analysis_count : Nat
deriving Repr, DecidableEq

/-- Audit log document built in `CosmosService.log_audit_event`
(cosmos_service.py lines 165-173). -/
structure AuditEvent where
  id : String
  customer_id : String
  event_type : String
  details : List (String × String)
  user_id : Option String
  timestamp : String
  ttl : Nat
deriving Repr, DecidableEq

/-- `CosmosService.generate_api_key` (cosmos_service.py lines 31-35):
`raw_key = "soc_" + token_urlsafe(32)`, hash is sha256 of the raw key.
`tok` stands for the random token, `sha` for sha256-hexdigest. -/
def generate_api_key (sha : String → String) (tok : String) : String × String :=
  let raw_key := "soc_" ++ tok
  (raw_key, sha raw_key)

/-- `CosmosService.create_customer` (cosmos_service.py lines 37-70).
Returns (stored document, raw api key, container after `create_item`). -/
def create_customer (sha : String → String) (tok uuid now : String)
    (tenant_id workspace_id workspace_name subscription_id resource_group : String)
    (callback_url : Option String) (ai_analysis_enabled : Bool)
    (store : List Customer) : Customer × String × List Customer :=
  let kp := generate_api_key sha tok
  let c : Customer :=
    { id := uuid
      tenant_id := tenant_id
      workspace_id := workspace_id
      workspace_name := workspace_name
      subscription_id := subscription_id
      resource_group := resource_group
      api_key_hash := kp.2
      callback_url := callback_url
      ai_analysis_enabled := ai_analysis_enabled
      status := "active"
      created_at := now
      updated_at := now
      analysis_count := 0 }
  (c, kp.1, store ++ [c])

/-- `api_key.startswith("soc_")` of cosmos_service.py line 74, stated over the
character list. -/
def pyStartsWithSoc (api_key : String) : Bool :=
  "soc_".toList.isPrefixOf api_key.toList

/-- `CosmosService.get_customer_by_api_key` (cosmos_service.py lines 72-90):
reject empty keys and keys without the soc_ mark before any query; otherwise
query `api_key_hash = sha256(key) AND status = "active"` and take `items[0]`. -/
def get_customer_by_api_key (sha : String → String) (store : List Customer)
    (api_key : String) : Option Customer :=
  if api_key.isEmpty || !(pyStartsWithSoc api_key) then none
  else (store.filter (fun c => c.api_key_hash == sha api_key && c.status == "active")).head?

/-- `CosmosService.get_customer_by_tenant` (cosmos_service.py lines 92-103):
query `tenant_id = @tenant_id` with NO status filter; take `items[0]`. -/
def get_customer_by_tenant (store : List Customer) (tenant_id : String) :
    Option Customer :=
  (store.filter (fun c => c.tenant_id == tenant_id)).head?

/-- `CosmosService.update_customer_api_key` (cosmos_service.py lines 125-143):
find the document by id (ValueError if absent), overwrite `api_key_hash` and
`updated_at`, `replace_item`. -/
def update_customer_api_key (store : List Customer)
    (customer_id new_api_key_hash now : String) : Except String (List Customer) :=
  if store.any (fun c => c.id == customer_id) then
    .ok (store.map (fun c =>
      if c.id == customer_id then
        { c with api_key_hash := new_api_key_hash, updated_at := now }
      else c))
  else .error "Customer not found"

/-- `CosmosService.log_audit_event` (cosmos_service.py lines 157-176):
build the audit document (ttl 31536000 = 365 days) and `create_item` it. -/
def log_audit_event (uuid now : String) (customer_id event_type : String)
    (details : List (String × String)) (user_id : Option String)
    (audits : List AuditEvent) : AuditEvent × List AuditEvent :=
  let e : AuditEvent :=
    { id := uuid
      customer_id := customer_id
      event_type := event_type
      details := details
      user_id := user_id
      timestamp := now
      ttl := 31536000 }
  (e, audits ++ [e])

/-- Error channel of a handler: `http s d` is `HTTPException(status_code=s,
detail=d)`; `exn m` is an uncaught exception escaping the handler. -/
inductive ApiError where
  | http : Nat → String → ApiError
  | exn : String → ApiError
deriving Repr, DecidableEq

/-- Decidable equality for `Except`, so handler outcomes can be compared by
`decide` in concrete runs. -/
instance instDecEqExcept {ε α : Type} [DecidableEq ε] [DecidableEq α] :
    DecidableEq (Except ε α) := fun a b =>
  match a, b with
  | .ok x, .ok y =>
    if h : x = y then .isTrue (by rw [h]) else .isFalse (by simp [h])
  | .error x, .error y =>
    if h : x = y then .isTrue (by rw [h]) else .isFalse (by simp [h])
  | .ok _, .error _ => .isFalse (by simp)
  | .error _, .ok _ => .isFalse (by simp)

/-! ### OAuth state token store (onboarding.py lines 22, 51-95) -/

/-- `_state_store[state] = value` with python-dict semantics (the key becomes
present exactly once). -/
def stateInsert (store : List (String × String)) (state redirect_uri : String) :
    List (String × String) :=
  (state, redirect_uri) :: store.filter (fun p => p.1 ≠ state)

/-- `_state_store.get(state)` / the `state in _state_store` test. -/
def stateLookup (store : List (String × String)) (state : String) :
    Option String :=
  (store.find? (fun p => p.1 == state)).map (fun p => p.2)

/-- `_state_store.pop(state)`: the store after removal of the key. -/
def statePop (store : List (String × String)) (state : String) :
    List (String × String) :=
  store.filter (fun p => p.1 ≠ state)

/-- `get_auth_url` (onboarding.py lines 51-76), restricted to its effect on the
state store: issue the freshly generated token `tok` for `redirect_uri`.
Returns (state token handed back to the caller, new store). -/
def get_auth_url (store : List (String × String)) (tok redirect_uri : String) :
    String × List (String × String) :=
  (tok, stateInsert store tok redirect_uri)

/-- Outcome of the state-validation part of the callback: on success, the
`redirect_uri` recovered from the store (which the handler then feeds to the
token exchange), plus the store after the handler ran. -/
structure CallbackOutcome where
  result : Except ApiError String
  store : List (String × String)
deriving Repr, DecidableEq

/-- `oauth_callback` (onboarding.py lines 79-95) up to and including state
consumption: provider `error` short-circuits with 400; unknown `state` is 400;
otherwise the entry is popped and the handler proceeds to the token exchange
with the stored redirect_uri. -/
def oauth_callback (store : List (String × String)) (state : String)
    (error : Option String) : CallbackOutcome :=
  match error with
  | some e => ⟨.error (.http 400 e), store⟩
  | none =>
    match stateLookup store state with
    | none => ⟨.error (.http 400 "Invalid state token"), store⟩
    | some redirect_uri => ⟨.ok redirect_uri, statePop store state⟩

/-! ### Resource-group extraction (onboarding.py lines 180-184) -/

/-- Split a character list at every occurrence of `sep`, keeping empty
pieces, exactly like python `str.split` with an explicit one-char separator
(`"".split("/") == [""]`, `"/a".split("/") == ["", "a"]`). -/
def splitOnChar (sep : Char) : List Char → List (List Char)
  | [] => [[]]
  | c :: rest =>
    match splitOnChar sep rest with
    | [] => [[]]
    | grp :: grps => if c = sep then [] :: grp :: grps else (c :: grp) :: grps

/-- `ws_id.split("/")` of onboarding.py line 182. -/
def pySplitSlash (s : String) : List String :=
  (splitOnChar '/' s.toList).map (fun cs => String.mk cs)

/-- The resource-group extraction in `list_workspaces`:
`parts = ws_id.split("/")`;
`rg_index = parts.index("resourceGroups") + 1 if "resourceGroups" in parts else -1`;
`resource_group = parts[rg_index] if rg_index > 0 else ""`.
`none` models the IndexError python would raise when `parts[rg_index]` is out
of bounds. -/
def extract_resource_group (ws_id : String) : Option String :=
  let parts := pySplitSlash ws_id
  let rg_index : Int :=
    if "resourceGroups" ∈ parts then (parts.indexOf "resourceGroups" : Int) + 1 else -1
  if 0 < rg_index then parts.get? rg_index.toNat else some ""

/-! ### /complete and /regenerate-api-key (onboarding.py lines 256-329) -/

/-- Body of `POST /complete` (onboarding.py lines 35-42). -/
structure OnboardingCompleteRequest where
  tenant_id : String
  subscription_id : String
  resource_group : String
  workspace_name : String
  workspace_id : String
  callback_url : Option String
  ai_analysis_enabled : Bool
deriving Repr, DecidableEq

/-- Response of `POST /complete` and of `POST /regenerate-api-key`
(onboarding.py lines 45-48 and 231-234 have the same three fields). -/
structure KeyIssueResponse where
  customer_id : String
  api_key : String
  message : String
deriving Repr, DecidableEq

/-- A handler run: its returned value or error, together with the stores as
the handler left them (Cosmos writes are not transactional across the two
containers, so an error return does not undo earlier writes). -/
structure HandlerOutcome where
  result : Except ApiError KeyIssueResponse
  customers : List Customer
  audits : List AuditEvent
deriving Repr, DecidableEq

/-- `complete_onboarding` (onboarding.py lines 290-329): look up by tenant
(any status) and 409 if found; otherwise create the customer, then write the
audit event; `audit_write_ok = false` models `create_item` on the audit
container raising, which escapes the handler after the customer write. -/
def complete_onboarding (sha : String → String) (tok uuid audit_uuid now : String)
    (audit_write_ok : Bool) (req : OnboardingCompleteRequest)
    (customers : List Customer) (audits : List AuditEvent) : HandlerOutcome :=
  match get_customer_by_tenant customers req.tenant_id with
  | some _ =>
    ⟨.error (.http 409 "A customer already exists for this tenant. Contact support to manage your subscription."),
      customers, audits⟩
  | none =>
    let r := create_customer sha tok uuid now req.tenant_id req.workspace_id
      req.workspace_name req.subscription_id req.resource_group
      req.callback_url req.ai_analysis_enabled customers
    if audit_write_ok then
      let a := log_audit_event audit_uuid now r.1.id "customer_onboarded"
        [("tenant_id", req.tenant_id), ("workspace_name", req.workspace_name),
         ("subscription_id", req.subscription_id)] none audits
      ⟨.ok ⟨r.1.id, r.2.1, "Customer created successfully."⟩, r.2.2, a.2⟩
    else ⟨.error (.exn "audit write failed"), r.2.2, audits⟩

/-- `regenerate_api_key` handler (onboarding.py lines 256-287): 404 when no
customer for the tenant; otherwise generate a new key, overwrite the stored
hash, write the audit event, return the new raw key. -/
def regenerate_api_key (sha : String → String) (tok audit_uuid now : String)
    (audit_write_ok : Bool) (tenant_id : String)
    (customers : List Customer) (audits : List AuditEvent) : HandlerOutcome :=
  match get_customer_by_tenant customers tenant_id with
  | none => ⟨.error (.http 404 "No customer found for this tenant."), customers, audits⟩
  | some existing =>
    let new_api_key := "soc_" ++ tok
    let api_key_hash := sha new_api_key
    match update_customer_api_key customers existing.id api_key_hash now with
    | .error e => ⟨.error (.exn e), customers, audits⟩
    | .ok customers1 =>
      if audit_write_ok then
        let a := log_audit_event audit_uuid now existing.id "api_key_regenerated"
          [("tenant_id", tenant_id)] none audits
        ⟨.ok ⟨existing.id, new_api_key, "New API key generated."⟩, customers1, a.2⟩
      else ⟨.error (.exn "audit write failed"), customers1, audits⟩

/-! ### /create-workspace (onboarding.py lines 474-565) -/

/-- Body of `POST /create-workspace` (onboarding.py lines 402-407). -/
structure CreateWorkspaceRequest where
  subscription_id : String
  resource_group : String
  workspace_name : String
  location : String
  create_resource_group : Bool
deriving Repr, DecidableEq

/-- Response of `POST /create-workspace` (onboarding.py lines 410-415). -/
structure CreateWorkspaceResponse where
  workspace_id : String
  workspace_name : String
  resource_group : String
  location : String
  sentinel_enabled : Bool
deriving Repr, DecidableEq

/-- `create_workspace` (onboarding.py lines 474-565) over the status codes of
the three ARM calls.  `rg_status` is the resource-group PUT status (only
consulted when `create_resource_group`), `ws_status` the workspace PUT status,
`ws_customer_id` the `properties.customerId` of the workspace body, and
`sentinel_status` the Sentinel-solution PUT status.  Resource-group failure
(outside 200/201) and workspace failure (outside 200/201/202) raise 400;
a failing Sentinel step only yields `sentinel_enabled = false`. -/
def create_workspace (req : CreateWorkspaceRequest) (rg_status ws_status : Nat)
    (ws_customer_id : String) (sentinel_status : Nat) :
    Except ApiError CreateWorkspaceResponse :=
  if req.create_resource_group && !(rg_status == 200 || rg_status == 201) then
    .error (.http 400 "Failed to create resource group")
  else if !(ws_status == 200 || ws_status == 201 || ws_status == 202) then
    .error (.http 400 "Failed to create workspace")
  else
    let sentinel_enabled :=
      sentinel_status == 200 || sentinel_status == 201 || sentinel_status == 202
    .ok ⟨ws_customer_id, req.workspace_name, req.resource_group, req.location,
      sentinel_enabled⟩

/-! ### /create-automation-rule (onboarding.py lines 605-689) -/

/-- Body of `POST /create-automation-rule` (onboarding.py lines 591-596). -/
structure CreateAutomationRuleRequest where
  subscription_id : String
  resource_group : String
  workspace_name : String
  logic_app_resource_id : String
  tenant_id : String
deriving Repr, DecidableEq

/-- Response of `POST /create-automation-rule` (onboarding.py lines 599-602). -/
structure CreateAutomationRuleResponse where
  automation_rule_name : String
  status : String
  message : String
deriving Repr, DecidableEq

/-- The status test at onboarding.py line 638:
`role_response.status_code not in [200, 201, 409]` — 409 (already exists)
counts as success. -/
def role_assignment_accepted (role_status : Nat) : Bool :=
  role_status == 200 || role_status == 201 || role_status == 409

/-- A `create_automation_rule` run: result plus the warnings printed on the
way (the role-assignment branch logs a warning instead of aborting). -/
structure AutomationRuleOutcome where
  result : Except ApiError CreateAutomationRuleResponse
  warnings : List String
deriving Repr, DecidableEq

/-- `create_automation_rule` (onboarding.py lines 605-689): the role
assignment PUT result is only branched on for logging (both branches fall
through to rule creation); the rule PUT outside 200/201/202 raises 400.
`rule_tok` is the `token_urlsafe(8)` suffix of the generated rule name. -/
def create_automation_rule (req : CreateAutomationRuleRequest)
    (rule_tok : String) (role_status rule_status : Nat) : AutomationRuleOutcome :=
  let warnings :=
    if role_assignment_accepted role_status then []
    else ["Failed to grant permissions"]
  let automation_rule_name := "SOC-T0-Auto-Analyze-" ++ rule_tok
  if !(rule_status == 200 || rule_status == 201 || rule_status == 202) then
    ⟨.error (.http 400 "Failed to create automation rule"), warnings⟩
  else
    ⟨.ok ⟨automation_rule_name, "created", "Automation rule created successfully."⟩,
      warnings⟩

/-! ### /subscriptions and /workspaces (onboarding.py lines 135-219, 437-465) -/

/-- A subscription object of the ARM response: `subscriptionId`,
`displayName` (may be absent) and `state` (may be absent). -/
structure Subscription where
  subscriptionId : String
  displayName : Option String
  state : Option String
deriving Repr, DecidableEq

/-- `SubscriptionInfo` (onboarding.py lines 396-399). -/
structure SubscriptionInfo where
  subscription_id : String
  display_name : String
  state : String
deriving Repr, DecidableEq

/-- `list_subscriptions` (onboarding.py lines 437-465): non-200 is 400;
otherwise keep exactly the subscriptions with `state == "Enabled"`. -/
def list_subscriptions (subs_status : Nat) (subs : List Subscription) :
    Except ApiError (List SubscriptionInfo) :=
  if subs_status ≠ 200 then .error (.http 400 "Failed to list subscriptions")
  else .ok ((subs.filter (fun s => s.state == some "Enabled")).map (fun s =>
    ⟨s.subscriptionId, s.displayName.getD s.subscriptionId, s.state.getD "Unknown"⟩))

/-- A workspace object of the per-subscription ARM listing: the fields the
code reads are `id`, `name`, `properties.customerId` and `location`. -/
structure WsRaw where
  id : String
  name : String
  customerId : String
  location : String
deriving Repr, DecidableEq

/-- `WorkspaceInfo` (onboarding.py lines 25-32). -/
structure WorkspaceInfo where
  subscription_id : String
  subscription_name : String
  resource_group : String
  workspace_name : String
  workspace_id : String
  location : String
  sentinel_enabled : Bool
deriving Repr, DecidableEq

/-- One workspace of the loop body (onboarding.py lines 178-212): extract the
resource group (a `none` models the IndexError escaping), then probe Sentinel:
solution GET 200 and then onboarding-state GET 200.  `sol` and `onb` map
(subscription_id, resource_group, workspace name) to the probe status. -/
def process_workspace (sol onb : String → String → String → Nat)
    (sub_id sub_name : String) (ws : WsRaw) : Option WorkspaceInfo :=
  match extract_resource_group ws.id with
  | none => none
  | some rg =>
    let sentinel_enabled :=
      if sol sub_id rg ws.name == 200 then onb sub_id rg ws.name == 200 else false
    some ⟨sub_id, sub_name, rg, ws.name, ws.customerId, ws.location, sentinel_enabled⟩

/-- Inner loop of `list_workspaces` over one subscription's workspace list. -/
def process_workspaces (sol onb : String → String → String → Nat)
    (sub_id sub_name : String) (wss : List WsRaw) (acc : List WorkspaceInfo) :
    Option (List WorkspaceInfo) :=
  match wss with
  | [] => some acc
  | ws :: rest =>
    match process_workspace sol onb sub_id sub_name ws with
    | none => none
    | some info => process_workspaces sol onb sub_id sub_name rest (acc ++ [info])

/-- Outer loop of `list_workspaces` over the subscriptions (onboarding.py
lines 163-216): a non-200 workspace listing only appends to
`debug_info["errors"]`; an IndexError in the extraction escapes the handler. -/
def list_workspaces_go (wsList : String → Nat × List WsRaw)
    (sol onb : String → String → String → Nat) (subs : List Subscription)
    (acc : List WorkspaceInfo × List String) :
    Except ApiError (List WorkspaceInfo × List String) :=
  match subs with
  | [] => .ok acc
  | sub :: rest =>
    let sub_id := sub.subscriptionId
    let sub_name := sub.displayName.getD sub_id
    let r := wsList sub_id
    if r.1 == 200 then
      match process_workspaces sol onb sub_id sub_name r.2 acc.1 with
      | none => .error (.exn "IndexError")
      | some infos => list_workspaces_go wsList sol onb rest (infos, acc.2)
    else
      list_workspaces_go wsList sol onb rest
        (acc.1, acc.2 ++ ["Failed to list workspaces in " ++ sub_name])

/-- `list_workspaces` (onboarding.py lines 135-219): abort with 400 when the
subscription listing is not 200; then walk ALL returned subscriptions (note:
the loop at line 163 reads only `subscriptionId` and `displayName`, never
`state`).  Returns (workspaces, debug errors). -/
def list_workspaces (subs_status : Nat) (subs : List Subscription)
    (wsList : String → Nat × List WsRaw)
    (sol onb : String → String → String → Nat) :
    Except ApiError (List WorkspaceInfo × List String) :=
  if subs_status ≠ 200 then .error (.http 400 "Failed to list subscriptions")
  else list_workspaces_go wsList sol onb subs ([], [])

/-! ### Postgres customer service (postgres_customer_service.py) and the
observable payloads of the two repository variants -/

/-- JSON-ish value for modelling python dict payloads field by field. -/
inductive Val where
  | s : String → Val
  | b : Bool → Val
  | n : Nat → Val
  | null : Val
deriving Repr, DecidableEq

/-- A customers-table row as inserted by
`PostgresCustomerService.create_customer` (postgres_customer_service.py
lines 70-112).  `api_key_pfx` is the `api_key_prefix` column (first 8 chars
of the raw key). -/
structure PgCustomerRow where
  id : String
  name : String
  email : String
  tenant_id : String
  workspace_id : String
  api_key_hash : String
  api_key_pfx : String
  callback_url : Option String
  status : String
  notes : Option String
  created_at : String
  updated_at : String
  incident_count : Nat
  ai_analysis_enabled : Bool
  workspace_name : String
  azure_subscription_id : String
  resource_group : String
  subscription_tier : String
  monthly_incident_count : Nat
deriving Repr, DecidableEq

/-- Module-level `generate_api_key` of postgres_customer_service.py lines
34-43: (raw key, sha256 hash, first-8-chars column value). -/
def pg_generate_api_key (sha : String → String) (tok : String) :
    String × String × String :=
  let raw_key := "soc_" ++ tok
  (raw_key, sha raw_key, raw_key.take 8)

/-- `PostgresCustomerService.create_customer` (postgres_customer_service.py
lines 49-126): insert the row and return the 8-field payload dict.
Returns (payload as ordered key-value pairs, table after the insert). -/
def pg_create_customer (sha : String → String) (tok uuid now : String)
    (tenant_id workspace_id workspace_name subscription_id resource_group : String)
    (callback_url : Option String) (ai_analysis_enabled : Bool)
    (rows : List PgCustomerRow) : List (String × Val) × List PgCustomerRow :=
  let k := pg_generate_api_key sha tok
  let row : PgCustomerRow :=
    { id := uuid
      name := workspace_name
      email := tenant_id ++ "@onboard.soctierzero.com"
      tenant_id := tenant_id
      workspace_id := workspace_id
      api_key_hash := k.2.1
      api_key_pfx := k.2.2
      callback_url := callback_url
      status := "active"
      notes := none
      created_at := now
      updated_at := now
      incident_count := 0
      ai_analysis_enabled := ai_analysis_enabled
      workspace_name := workspace_name
      azure_subscription_id := subscription_id
      resource_group := resource_group
      subscription_tier := "free"
      monthly_incident_count := 0 }
  ([("id", .s uuid), ("tenant_id", .s tenant_id), ("workspace_id", .s workspace_id),
    ("workspace_name", .s workspace_name), ("subscription_id", .s subscription_id),
    ("resource_group", .s resource_group), ("api_key", .s k.1),
    ("status", .s "active")], rows ++ [row])

/-- `PostgresCustomerService.get_customer_by_tenant`
(postgres_customer_service.py lines 128-148): `WHERE tenant_id = :tid LIMIT 1`
(no status filter) projected to a 7-field dict. -/
def pg_get_customer_by_tenant (rows : List PgCustomerRow) (tenant_id : String) :
    Option (List (String × Val)) :=
  (rows.filter (fun r => r.tenant_id == tenant_id)).head?.map (fun r =>
    [("id", .s r.id), ("tenant_id", .s r.tenant_id),
     ("workspace_id", .s r.workspace_id), ("workspace_name", .s r.workspace_name),
     ("subscription_id", .s r.azure_subscription_id),
     ("resource_group", .s r.resource_group), ("status", .s r.status)])

/-- `PostgresCustomerService.regenerate_api_key` (postgres_customer_service.py
lines 150-170): UPDATE hash, prefix column and updated_at by id; rowcount 0
raises before commit.  Returns (new raw key, table after the update). -/
def pg_regenerate_api_key (sha : String → String) (tok now customer_id : String)
    (rows : List PgCustomerRow) : Except String (String × List PgCustomerRow) :=
  let k := pg_generate_api_key sha tok
  if rows.any (fun r => r.id == customer_id) then
    .ok (k.1, rows.map (fun r =>
      if r.id == customer_id then
        { r with api_key_hash := k.2.1, api_key_pfx := k.2.2, updated_at := now }
      else r))
  else .error "Customer not found"

/-- The payload `CosmosService.create_customer` hands back
(`{**customer, "api_key": raw_api_key}`, cosmos_service.py line 70), as
ordered key-value pairs, for field-by-field comparison with the Postgres
variant. -/
def cosmos_create_payload (sha : String → String) (tok uuid now : String)
    (tenant_id workspace_id workspace_name subscription_id resource_group : String)
    (callback_url : Option String) (ai_analysis_enabled : Bool) :
    List (String × Val) :=
  let kp := generate_api_key sha tok
  [("id", .s uuid), ("tenant_id", .s tenant_id), ("workspace_id", .s workspace_id),
   ("workspace_name", .s workspace_name), ("subscription_id", .s subscription_id),
   ("resource_group", .s resource_group), ("api_key_hash", .s kp.2),
   ("callback_url", callback_url.elim Val.null Val.s),
   ("ai_analysis_enabled", .b ai_analysis_enabled), ("status", .s "active"),
   ("created_at", .s now), ("updated_at", .s now), ("analysis_count", .n 0),
   ("api_key", .s kp.1)]

/-- The 7-field projection of a Cosmos customer document matching the keys of
`pg_get_customer_by_tenant`. -/
def cosmos_tenant_payload7 (c : Customer) : List (String × Val) :=
  [("id", .s c.id), ("tenant_id", .s c.tenant_id),
   ("workspace_id", .s c.workspace_id), ("workspace_name", .s c.workspace_name),
   ("subscription_id", .s c.subscription_id),
   ("resource_group", .s c.resource_group), ("status", .s c.status)]

/-- Dict lookup in an ordered key-value payload. -/
def payloadGet (p : List (String × Val)) (k : String) : Option Val :=
  (p.find? (fun q => q.1 == k)).map (fun q => q.2)

/-! ## Theorems -/

/-- C10: the resource-group extraction of `list_workspaces` is total under the
shape of ARM ids: an id whose slash-separated segments do not contain
"resourceGroups" yields the empty string without error, and an id whose (first)
"resourceGroups" segment is followed by at least one further segment yields
exactly the next segment, with the indexing in bounds (result `some`, never the
IndexError case `none`). -/
theorem C10_extract_resource_group_total :
    (∀ ws_id : String, "resourceGroups" ∉ pySplitSlash ws_id →
      extract_resource_group ws_id = some "")
    ∧ (∀ ws_id : String,
        ∀ hlt : (pySplitSlash ws_id).indexOf "resourceGroups" + 1 < (pySplitSlash ws_id).length,
        "resourceGroups" ∈ pySplitSlash ws_id →
        extract_resource_group ws_id =
          some ((pySplitSlash ws_id).get
            ⟨(pySplitSlash ws_id).indexOf "resourceGroups" + 1, hlt⟩)) := by
  constructor
  · intro ws_id h
    simp [extract_resource_group, h]
  · intro ws_id hlt hmem
    simp only [extract_resource_group, if_pos hmem]
    have h1 : (0:Int) < (((pySplitSlash ws_id).indexOf "resourceGroups" : Int) + 1) := by
      omega
    rw [if_pos h1]
    have h2 : ((((pySplitSlash ws_id).indexOf "resourceGroups") : Int) + 1).toNat
        = (pySplitSlash ws_id).indexOf "resourceGroups" + 1 := by omega
    rw [h2, List.get?_eq_get hlt]

/-- C10 witness: a real ARM id yields its resource group, an id without the
segment yields the empty string. -/
theorem C10_witness :
    extract_resource_group "/subscriptions/s1/resourceGroups/rg1/providers/x" = some "rg1"
    ∧ extract_resource_group "abc" = some "" :=
  ⟨(C10_extract_resource_group_total.2
      "/subscriptions/s1/resourceGroups/rg1/providers/x" (by decide) (by decide)).trans
        (by decide),
   C10_extract_resource_group_total.1 "abc" (by decide)⟩

/-- C3: in `create_workspace`, a failing Sentinel-enablement step after
successful resource-group (when requested) and workspace steps still returns a
success carrying the workspace id with `sentinel_enabled = false`; a failing
resource-group step (when requested) aborts with an error, as does a failing
workspace-creation step. -/
theorem C3_create_workspace_sentinel_nonfatal :
    (∀ (req : CreateWorkspaceRequest) (rg ws : Nat) (cid : String) (sent : Nat),
      (req.create_resource_group = true → rg = 200 ∨ rg = 201) →
      (ws = 200 ∨ ws = 201 ∨ ws = 202) →
      sent ≠ 200 → sent ≠ 201 → sent ≠ 202 →
      create_workspace req rg ws cid sent =
        .ok ⟨cid, req.workspace_name, req.resource_group, req.location, false⟩)
    ∧ (∀ (req : CreateWorkspaceRequest) (rg ws : Nat) (cid : String) (sent : Nat),
        req.create_resource_group = true → rg ≠ 200 → rg ≠ 201 →
        create_workspace req rg ws cid sent =
          .error (.http 400 "Failed to create resource group"))
    ∧ (∀ (req : CreateWorkspaceRequest) (rg ws : Nat) (cid : String) (sent : Nat),
        (req.create_resource_group = true → rg = 200 ∨ rg = 201) →
        ws ≠ 200 → ws ≠ 201 → ws ≠ 202 →
        create_workspace req rg ws cid sent =
          .error (.http 400 "Failed to create workspace")) := by
  refine ⟨?_, ?_, ?_⟩ <;> intro req rg ws cid sent
  · intro hrg hws h1 h2 h3
    have hrgc : (req.create_resource_group && !(rg == 200 || rg == 201)) = false := by
      cases hcr : req.create_resource_group
      · simp
      · rcases hrg hcr with h | h <;> simp [h]
    have hwsc : (ws == 200 || ws == 201 || ws == 202) = true := by
      rcases hws with h | h | h <;> simp [h]
    have hsent : (sent == 200 || sent == 201 || sent == 202) = false := by
      simp [beq_eq_false_iff_ne, h1, h2, h3]
    unfold create_workspace
    rw [hrgc, hwsc, hsent]
    simp
  · intro hcr h1 h2
    have hrgc : (req.create_resource_group && !(rg == 200 || rg == 201)) = true := by
      simp [hcr, beq_eq_false_iff_ne, h1, h2]
    unfold create_workspace
    rw [hrgc]
    simp
  · intro hrg h1 h2 h3
    have hrgc : (req.create_resource_group && !(rg == 200 || rg == 201)) = false := by
      cases hcr : req.create_resource_group
      · simp
      · rcases hrg hcr with h | h <;> simp [h]
    have hwsc : (ws == 200 || ws == 201 || ws == 202) = false := by
      simp [beq_eq_false_iff_ne, h1, h2, h3]
    unfold create_workspace
    rw [hrgc, hwsc]
    simp

/-- C3 witness: with resource group requested and granted (201), workspace
created (200) and Sentinel failing (500), the call still succeeds with
`sentinel_enabled = false`; and the two fatal steps do abort. -/
theorem C3_witness :
    create_workspace ⟨"s1", "rg1", "w1", "eastus", true⟩ 201 200 "cid1" 500 =
      .ok ⟨"cid1", "w1", "rg1", "eastus", false⟩
    ∧ create_workspace ⟨"s1", "rg1", "w1", "eastus", true⟩ 403 200 "cid1" 200 =
      .error (.http 400 "Failed to create resource group")
    ∧ create_workspace ⟨"s1", "rg1", "w1", "eastus", false⟩ 403 500 "cid1" 200 =
      .error (.http 400 "Failed to create workspace") :=
  ⟨C3_create_workspace_sentinel_nonfatal.1 ⟨"s1", "rg1", "w1", "eastus", true⟩ 201 200 "cid1" 500
      (fun _ => Or.inr rfl) (Or.inl rfl) (by decide) (by decide) (by decide),
   C3_create_workspace_sentinel_nonfatal.2.1 ⟨"s1", "rg1", "w1", "eastus", true⟩ 403 200 "cid1" 200
      rfl (by decide) (by decide),
   C3_create_workspace_sentinel_nonfatal.2.2 ⟨"s1", "rg1", "w1", "eastus", false⟩ 403 500 "cid1" 200
      (fun h => by cases h) (by decide) (by decide) (by decide)⟩

/-- C4: in `create_automation_rule`, a role-assignment status of 409 is in the
accepted set (treated as success, no warning); the call result never depends on
the role-assignment status at all (any failure there is non-fatal); and a
rule-creation status outside 200/201/202 is fatal with a 400 error, while a
status inside it yields the created rule. -/
theorem C4_automation_rule_policy :
    role_assignment_accepted 409 = true
    ∧ (∀ (req : CreateAutomationRuleRequest) (tok : String) (role1 role2 rule : Nat),
        (create_automation_rule req tok role1 rule).result
          = (create_automation_rule req tok role2 rule).result)
    ∧ (∀ (req : CreateAutomationRuleRequest) (tok : String) (role rule : Nat),
        role_assignment_accepted role = true →
        (create_automation_rule req tok role rule).warnings = [])
    ∧ (∀ (req : CreateAutomationRuleRequest) (tok : String) (role rule : Nat),
        rule ≠ 200 → rule ≠ 201 → rule ≠ 202 →
        (create_automation_rule req tok role rule).result
          = .error (.http 400 "Failed to create automation rule"))
    ∧ (∀ (req : CreateAutomationRuleRequest) (tok : String) (role rule : Nat),
        (rule = 200 ∨ rule = 201 ∨ rule = 202) →
        (create_automation_rule req tok role rule).result
          = .ok ⟨"SOC-T0-Auto-Analyze-" ++ tok, "created",
              "Automation rule created successfully."⟩) := by
  refine ⟨by decide, ?_, ?_, ?_, ?_⟩
  · intro req tok role1 role2 rule
    by_cases h : (rule == 200 || rule == 201 || rule == 202) = true <;>
      simp [create_automation_rule, h]
  · intro req tok role rule h
    by_cases hr : (rule == 200 || rule == 201 || rule == 202) = true <;>
      simp [create_automation_rule, h, hr]
  · intro req tok role rule h1 h2 h3
    have hr : (rule == 200 || rule == 201 || rule == 202) = false := by
      simp [beq_eq_false_iff_ne, h1, h2, h3]
    simp [create_automation_rule, hr]
  · intro req tok role rule h
    have hr : (rule == 200 || rule == 201 || rule == 202) = true := by
      rcases h with h | h | h <;> simp [h]
    simp [create_automation_rule, hr]

/-- After popping a state token, looking it up again finds nothing. -/
theorem stateLookup_statePop_self (store : List (String × String)) (tok : String) :
    stateLookup (statePop store tok) tok = none := by
  have hf : List.find? (fun p => p.1 == tok) (statePop store tok) = none := by
    rw [List.find?_eq_none]
    intro x hx
    simp only [statePop, List.mem_filter, decide_eq_true_eq] at hx
    simp [hx.2]
  simp [stateLookup, hf]

/-- C2: a state token issued by `get_auth_url` is consumed exactly once by
`oauth_callback`: the first callback with it recovers the stored redirect_uri
and removes the entry, a second callback with the same token gets 400
(Invalid state token), and a token that was never issued also gets 400. -/
theorem C2_state_token_consumed_once :
    (∀ (store : List (String × String)) (tok r : String),
      (oauth_callback (get_auth_url store tok r).2 tok none).result = .ok r
      ∧ stateLookup (oauth_callback (get_auth_url store tok r).2 tok none).store tok = none
      ∧ (oauth_callback (oauth_callback (get_auth_url store tok r).2 tok none).store
          tok none).result = .error (.http 400 "Invalid state token"))
    ∧ (∀ (store : List (String × String)) (s : String), stateLookup store s = none →
        (oauth_callback store s none).result = .error (.http 400 "Invalid state token")) := by
  constructor
  · intro store tok r
    have hl : stateLookup (get_auth_url store tok r).2 tok = some r := by
      simp [get_auth_url, stateInsert, stateLookup]
    have hcb : oauth_callback (get_auth_url store tok r).2 tok none =
        ⟨.ok r, statePop (get_auth_url store tok r).2 tok⟩ := by
      simp [oauth_callback, hl]
    refine ⟨by rw [hcb], ?_, ?_⟩
    · rw [hcb]
      exact stateLookup_statePop_self _ tok
    · rw [hcb]
      simp [oauth_callback, stateLookup_statePop_self]
  · intro store s h
    simp [oauth_callback, h]

/-- C2 witness: issuing "st1" and consuming it once succeeds with the stored
redirect_uri; a token never issued into the empty store is rejected. -/
theorem C2_witness :
    (oauth_callback (get_auth_url [] "st1" "https://app/cb").2 "st1" none).result
      = .ok "https://app/cb"
    ∧ (oauth_callback [] "neverIssued" none).result
      = .error (.http 400 "Invalid state token") :=
  ⟨(C2_state_token_consumed_once.1 [] "st1" "https://app/cb").1,
   C2_state_token_consumed_once.2 [] "neverIssued" (by decide)⟩

/-- C6: `get_customer_by_api_key` returns nothing for any store when the key
lacks the soc_ mark (no lookup can depend on the store); with the mark, it
hashes and searches active customers only, returning nothing when no active
customer carries that hash, and any hit is an active stored customer with
exactly that hash. -/
theorem C6_get_by_api_key_spec (sha : String → String) :
    (∀ (store : List Customer) (key : String), pyStartsWithSoc key = false →
      get_customer_by_api_key sha store key = none)
    ∧ (∀ (store : List Customer) (key : String), pyStartsWithSoc key = true →
        (∀ c ∈ store, c.status = "active" → c.api_key_hash ≠ sha key) →
        get_customer_by_api_key sha store key = none)
    ∧ (∀ (store : List Customer) (key : String) (c : Customer),
        get_customer_by_api_key sha store key = some c →
        c ∈ store ∧ c.api_key_hash = sha key ∧ c.status = "active") := by
  refine ⟨?_, ?_, ?_⟩
  · intro store key h
    simp [get_customer_by_api_key, h]
  · intro store key h hnone
    have hke : key.isEmpty = false := by
      cases hk : key.isEmpty
      · rfl
      · exfalso
        have : key = "" := (String.isEmpty_iff key).mp hk
        rw [this] at h
        exact absurd h (by decide)
    have hfil : store.filter
        (fun c => c.api_key_hash == sha key && c.status == "active") = [] := by
      rw [List.filter_eq_nil_iff]
      intro c hc
      by_cases hs : c.status = "active"
      · simp [hnone c hc hs]
      · simp [hs]
    simp [get_customer_by_api_key, h, hke, hfil]
  · intro store key c h
    simp only [get_customer_by_api_key] at h
    by_cases hg : (key.isEmpty || !pyStartsWithSoc key) = true
    · rw [if_pos hg] at h
      exact absurd h (by simp)
    · rw [if_neg hg] at h
      have hc : c ∈ store.filter
          (fun c => c.api_key_hash == sha key && c.status == "active") :=
        List.mem_of_mem_head? (by rw [h]; rfl)
      rw [List.mem_filter] at hc
      refine ⟨hc.1, ?_⟩
      have := hc.2
      simp only [Bool.and_eq_true, beq_iff_eq] at this
      exact this

/-- C6 witness: a key without the soc_ mark resolves to nothing on a store
that does contain its hash; an unknown soc_ key resolves to nothing; the
freshly stored key resolves. -/
theorem C6_witness :
    get_customer_by_api_key (fun s => s) [] "bad_key" = none
    ∧ get_customer_by_api_key (fun s => s)
        [{ id := "c1", tenant_id := "t1", workspace_id := "w", workspace_name := "wn",
           subscription_id := "s", resource_group := "rg", api_key_hash := "soc_x",
           callback_url := none, ai_analysis_enabled := true, status := "active",
           created_at := "d", updated_at := "d", analysis_count := 0 }] "soc_y" = none :=
  ⟨(C6_get_by_api_key_spec (fun s => s)).1 [] "bad_key" (by decide),
   (C6_get_by_api_key_spec (fun s => s)).2.1
     [{ id := "c1", tenant_id := "t1", workspace_id := "w", workspace_name := "wn",
        subscription_id := "s", resource_group := "rg", api_key_hash := "soc_x",
        callback_url := none, ai_analysis_enabled := true, status := "active",
        created_at := "d", updated_at := "d", analysis_count := 0 }] "soc_y"
     (by decide) (by decide)⟩

/-- A tenant lookup with no matching record at all returns nothing. -/
theorem get_customer_by_tenant_eq_none {store : List Customer} {t : String}
    (h : ∀ c ∈ store, c.tenant_id ≠ t) : get_customer_by_tenant store t = none := by
  have hfe : store.filter (fun c => c.tenant_id == t) = [] := by
    rw [List.filter_eq_nil_iff]
    intro c hc
    simp [h c hc]
  simp [get_customer_by_tenant, hfe]

/-- A record with the tenant id in the store makes the tenant lookup hit. -/
theorem get_customer_by_tenant_isSome {store : List Customer} {t : String}
    {c : Customer} (hc : c ∈ store) (ht : c.tenant_id = t) :
    (get_customer_by_tenant store t).isSome = true := by
  simp only [get_customer_by_tenant]
  cases hfe : store.filter (fun c => c.tenant_id == t) with
  | nil =>
    exfalso
    rw [List.filter_eq_nil_iff] at hfe
    exact hfe c hc (by simp [ht])
  | cons a l => simp

/-- A hit of the tenant lookup is a member of the store. -/
theorem mem_of_get_customer_by_tenant {store : List Customer} {t : String}
    {x : Customer} (h : get_customer_by_tenant store t = some x) : x ∈ store := by
  have hx : x ∈ store.filter (fun c => c.tenant_id == t) :=
    List.mem_of_mem_head? (by rw [get_customer_by_tenant] at h; rw [h]; rfl)
  exact (List.mem_filter.mp hx).1

/-- An inactive customer record for tenant t1, as a store can legitimately
hold one (the data model and `get_customer_by_api_key` both recognise
non-active statuses). -/
def c1_inactive : Customer :=
  { id := "c0"
    tenant_id := "t1"
    workspace_id := "w0"
    workspace_name := "wn0"
    subscription_id := "s0"
    resource_group := "rg0"
    api_key_hash := "h0"
    callback_url := none
    ai_analysis_enabled := true
    status := "inactive"
    created_at := "d0"
    updated_at := "d0"
    analysis_count := 0 }

/-- C1 counterexample: with the store holding one INACTIVE customer for tenant
t1 (so no active customer exists for t1), `complete_onboarding` still answers
409 and creates nothing, because `get_customer_by_tenant` (cosmos_service.py
line 96) queries without any status filter — contradicting the claim that a
new customer is created whenever no ACTIVE customer exists. -/
theorem C1_counterexample :
    (∀ c ∈ [c1_inactive], ¬(c.tenant_id = "t1" ∧ c.status = "active"))
    ∧ (complete_onboarding (fun s => s) "tok" "u1" "a1" "now" true
        ⟨"t1", "s1", "rg1", "w1", "wid1", none, true⟩ [c1_inactive] []).result
      = .error (.http 409 "A customer already exists for this tenant. Contact support to manage your subscription.")
    ∧ (complete_onboarding (fun s => s) "tok" "u1" "a1" "now" true
        ⟨"t1", "s1", "rg1", "w1", "wid1", none, true⟩ [c1_inactive] []).customers
      = [c1_inactive] := by decide

/-- C1 amended: `complete_onboarding` answers 409 and creates nothing whenever
ANY customer record (of any status) exists for the tenant_id; when no customer
record at all exists for the tenant_id it appends exactly one new active
customer and returns its id together with the raw API key. -/
theorem C1_complete_onboarding_conflict :
    (∀ (sha : String → String) (tok uuid auuid now : String)
       (req : OnboardingCompleteRequest) (store : List Customer)
       (audits : List AuditEvent) (c : Customer),
      c ∈ store → c.tenant_id = req.tenant_id →
      (complete_onboarding sha tok uuid auuid now true req store audits).result
        = .error (.http 409 "A customer already exists for this tenant. Contact support to manage your subscription.")
      ∧ (complete_onboarding sha tok uuid auuid now true req store audits).customers
        = store)
    ∧ (∀ (sha : String → String) (tok uuid auuid now : String)
       (req : OnboardingCompleteRequest) (store : List Customer)
       (audits : List AuditEvent),
      (∀ c ∈ store, c.tenant_id ≠ req.tenant_id) →
      ∃ newc : Customer,
        (complete_onboarding sha tok uuid auuid now true req store audits).result
          = .ok ⟨uuid, "soc_" ++ tok, "Customer created successfully."⟩
        ∧ (complete_onboarding sha tok uuid auuid now true req store audits).customers
          = store ++ [newc]
        ∧ newc.id = uuid ∧ newc.tenant_id = req.tenant_id ∧ newc.status = "active"
        ∧ newc.api_key_hash = sha ("soc_" ++ tok)) := by
  constructor
  · intro sha tok uuid auuid now req store audits c hc ht
    obtain ⟨x, hx⟩ := Option.isSome_iff_exists.mp (get_customer_by_tenant_isSome hc ht)
    constructor <;> simp [complete_onboarding, hx]
  · intro sha tok uuid auuid now req store audits h
    have hn := get_customer_by_tenant_eq_none h
    refine ⟨(create_customer sha tok uuid now req.tenant_id req.workspace_id
      req.workspace_name req.subscription_id req.resource_group
      req.callback_url req.ai_analysis_enabled store).1, ?_, ?_, rfl, rfl, rfl, rfl⟩
    · simp [complete_onboarding, hn, create_customer, generate_api_key]
    · simp [complete_onboarding, hn, create_customer]

/-- An active customer of an unrelated tenant t9. -/
def c1_other : Customer :=
  { id := "c9"
    tenant_id := "t9"
    workspace_id := "w9"
    workspace_name := "wn9"
    subscription_id := "s9"
    resource_group := "rg9"
    api_key_hash := "h9"
    callback_url := none
    ai_analysis_enabled := true
    status := "active"
    created_at := "d9"
    updated_at := "d9"
    analysis_count := 0 }

/-- C1 witness: creating into a store whose only record belongs to another
tenant succeeds with the generated id and raw key. -/
theorem C1_witness :
    ∃ newc : Customer,
      (complete_onboarding (fun s => s) "tok" "u1" "a1" "now" true
        ⟨"t1", "s1", "rg1", "w1", "wid1", none, true⟩ [c1_other] []).result
        = .ok ⟨"u1", "soc_" ++ "tok", "Customer created successfully."⟩
      ∧ (complete_onboarding (fun s => s) "tok" "u1" "a1" "now" true
          ⟨"t1", "s1", "rg1", "w1", "wid1", none, true⟩ [c1_other] []).customers
        = [c1_other] ++ [newc]
      ∧ newc.id = "u1" ∧ newc.tenant_id = "t1" ∧ newc.status = "active"
      ∧ newc.api_key_hash = (fun s : String => s) ("soc_" ++ "tok") :=
  C1_complete_onboarding_conflict.2 (fun s => s) "tok" "u1" "a1" "now"
    ⟨"t1", "s1", "rg1", "w1", "wid1", none, true⟩ [c1_other] [] (by decide)

/-- C9 counterexample: when the audit write raises during `complete_onboarding`
(no try/except around `log_audit_event`, onboarding.py line 315), the customer
write is NOT rolled back (the new record is in the store) yet the call fails
from the caller's perspective — contradicting the claim that audit failure
does not cause the operation to fail. -/
theorem C9_counterexample :
    (complete_onboarding (fun s => s) "tok" "u1" "a1" "now" false
        ⟨"t1", "s1", "rg1", "w1", "wid1", none, true⟩ [] []).result
      = .error (.exn "audit write failed")
    ∧ (complete_onboarding (fun s => s) "tok" "u1" "a1" "now" false
        ⟨"t1", "s1", "rg1", "w1", "wid1", none, true⟩ [] []).customers
      = [{ id := "u1", tenant_id := "t1", workspace_id := "wid1",
           workspace_name := "w1", subscription_id := "s1", resource_group := "rg1",
           api_key_hash := "soc_tok", callback_url := none, ai_analysis_enabled := true,
           status := "active", created_at := "now", updated_at := "now",
           analysis_count := 0 }] := by decide

/-- C9 amended: a failing audit write never rolls back the primary persisted
change (the created customer stays in the store after `/complete`; the
overwritten key hash stays after `/regenerate-api-key`), but it DOES make the
operation fail from the caller's perspective, since the exception escapes the
handler. -/
theorem C9_audit_failure_semantics :
    (∀ (sha : String → String) (tok uuid auuid now : String)
       (req : OnboardingCompleteRequest) (store : List Customer)
       (audits : List AuditEvent),
      (∀ c ∈ store, c.tenant_id ≠ req.tenant_id) →
      (complete_onboarding sha tok uuid auuid now false req store audits).result
        = .error (.exn "audit write failed")
      ∧ ∃ newc : Customer,
          (complete_onboarding sha tok uuid auuid now false req store audits).customers
            = store ++ [newc]
          ∧ newc.tenant_id = req.tenant_id
          ∧ newc.api_key_hash = sha ("soc_" ++ tok))
    ∧ (∀ (sha : String → String) (tok auuid now tenant : String)
       (store : List Customer) (audits : List AuditEvent) (existing : Customer),
      get_customer_by_tenant store tenant = some existing →
      (regenerate_api_key sha tok auuid now false tenant store audits).result
        = .error (.exn "audit write failed")
      ∧ (regenerate_api_key sha tok auuid now false tenant store audits).customers
        = store.map (fun c =>
            if c.id == existing.id then
              { c with api_key_hash := sha ("soc_" ++ tok), updated_at := now }
            else c)) := by
  constructor
  · intro sha tok uuid auuid now req store audits h
    have hn := get_customer_by_tenant_eq_none h
    refine ⟨by simp [complete_onboarding, hn],
      (create_customer sha tok uuid now req.tenant_id req.workspace_id
        req.workspace_name req.subscription_id req.resource_group
        req.callback_url req.ai_analysis_enabled store).1, ?_, rfl, rfl⟩
    simp [complete_onboarding, hn, create_customer]
  · intro sha tok auuid now tenant store audits existing h
    have hmem : existing ∈ store := mem_of_get_customer_by_tenant h
    have hany : store.any (fun c => c.id == existing.id) = true := by
      rw [List.any_eq_true]
      exact ⟨existing, hmem, by simp⟩
    have hupd : update_customer_api_key store existing.id (sha ("soc_" ++ tok)) now
        = .ok (store.map (fun c =>
            if c.id == existing.id then
              { c with api_key_hash := sha ("soc_" ++ tok), updated_at := now }
            else c)) := by
      simp [update_customer_api_key, hany]
    constructor <;> simp [regenerate_api_key, h, hupd]

/-- An existing active customer of tenant t1 whose key is regenerated. -/
def c9_existing : Customer :=
  { id := "c1"
    tenant_id := "t1"
    workspace_id := "w1"
    workspace_name := "wn1"
    subscription_id := "s1"
    resource_group := "rg1"
    api_key_hash := "soc_old"
    callback_url := none
    ai_analysis_enabled := true
    status := "active"
    created_at := "d1"
    updated_at := "d1"
    analysis_count := 0 }

/-- C9 witness: a concrete regeneration with the audit write failing leaves the
new hash persisted while the call errors. -/
theorem C9_witness :
    (regenerate_api_key (fun s => s) "tk2" "a2" "n2" false "t1"
        [c9_existing] []).result
      = .error (.exn "audit write failed")
    ∧ (regenerate_api_key (fun s => s) "tk2" "a2" "n2" false "t1"
        [c9_existing] []).customers
      = [c9_existing].map (fun c =>
          if c.id == c9_existing.id then
            { c with
                api_key_hash := (fun s : String => s) ("soc_" ++ "tk2")
                updated_at := "n2" }
          else c) :=
  C9_audit_failure_semantics.2 (fun s => s) "tk2" "a2" "n2" "t1"
    [c9_existing] [] c9_existing (by decide)

/-- A key of the generated shape always carries the soc_ mark. -/
theorem pyStartsWithSoc_socKey (t : String) : pyStartsWithSoc ("soc_" ++ t) = true := by
  show ("soc_".toList.isPrefixOf ("soc_".toList ++ t.toList)) = true
  simp [List.isPrefixOf_iff_prefix]

/-- A key of the generated shape is never the empty string. -/
theorem socKey_isEmpty_false (t : String) : ("soc_" ++ t).isEmpty = false := by
  cases hk : ("soc_" ++ t).isEmpty
  · rfl
  · exfalso
    have h2 : ("soc_" ++ t) = "" := (String.isEmpty_iff _).mp hk
    have h3 : ("soc_" ++ t).toList = "".toList := by rw [h2]
    simp at h3

/-- Looking up a key whose hash matches no active record (in particular any
record at all) yields nothing. -/
theorem get_by_key_none_of_no_match (sha : String → String) (store : List Customer)
    (key : String)
    (hnone : ∀ c ∈ store, ¬(c.api_key_hash = sha key ∧ c.status = "active")) :
    get_customer_by_api_key sha store key = none := by
  by_cases hg : (key.isEmpty || !pyStartsWithSoc key) = true
  · simp [get_customer_by_api_key, hg]
  · have hfil : store.filter
        (fun c => c.api_key_hash == sha key && c.status == "active") = [] := by
      rw [List.filter_eq_nil_iff]
      intro c hc
      by_cases h1 : c.api_key_hash = sha key
      · have h2 : c.status ≠ "active" := fun hs => hnone c hc ⟨h1, hs⟩
        simp [h2]
      · simp [h1]
    unfold get_customer_by_api_key
    rw [if_neg hg, hfil]
    rfl

/-- Appending a fresh active record whose hash is the key's hash makes the key
resolve to exactly that record. -/
theorem get_by_api_key_append_fresh (sha : String → String) (store : List Customer)
    (c : Customer) (key : String)
    (hkey : pyStartsWithSoc key = true) (hne : key.isEmpty = false)
    (hfresh : ∀ x ∈ store, x.api_key_hash ≠ sha key)
    (hc : c.api_key_hash = sha key) (hst : c.status = "active") :
    get_customer_by_api_key sha (store ++ [c]) key = some c := by
  have hfil : store.filter
      (fun x => x.api_key_hash == sha key && x.status == "active") = [] := by
    rw [List.filter_eq_nil_iff]
    intro x hx
    simp [hfresh x hx]
  simp [get_customer_by_api_key, hne, hkey, List.filter_append, hfil, hc, hst]

/-- Appending a record of a previously unseen tenant makes the tenant lookup
return exactly that record. -/
theorem get_by_tenant_append (store : List Customer) (c : Customer) (t : String)
    (hnone : ∀ x ∈ store, x.tenant_id ≠ t) (hc : c.tenant_id = t) :
    get_customer_by_tenant (store ++ [c]) t = some c := by
  have hfil : store.filter (fun x => x.tenant_id == t) = [] := by
    rw [List.filter_eq_nil_iff]
    intro x hx
    simp [hnone x hx]
  simp [get_customer_by_tenant, List.filter_append, hfil, hc]

/-- C5: the raw key returned by creation resolves to the created customer;
after a key regeneration via the endpoint, the new raw key resolves to the
updated customer (same record, new hash), the previously issued key no longer
resolves, and no record in the store retains the old hash.  `tok1`/`tok2` are
the two generated random tokens; freshness of the generated hashes and ids
with respect to the pre-existing store, and non-collision of the two hashes,
are exactly the guarantees sha256 over 32 fresh random bytes provides. -/
theorem C5_key_lifecycle
    (sha : String → String) (tok1 tok2 uuid auuid now now2 : String)
    (tenant wsid wsname subid rg : String) (cb : Option String) (ai : Bool)
    (store : List Customer) (audits : List AuditEvent)
    (hfresh1 : ∀ c ∈ store, c.api_key_hash ≠ sha ("soc_" ++ tok1))
    (hfresh2 : ∀ c ∈ store, c.api_key_hash ≠ sha ("soc_" ++ tok2))
    (htenant : ∀ c ∈ store, c.tenant_id ≠ tenant)
    (hid : ∀ c ∈ store, c.id ≠ uuid)
    (hdiff : sha ("soc_" ++ tok2) ≠ sha ("soc_" ++ tok1)) :
    get_customer_by_api_key sha
        (create_customer sha tok1 uuid now tenant wsid wsname subid rg cb ai store).2.2
        ("soc_" ++ tok1)
      = some (create_customer sha tok1 uuid now tenant wsid wsname subid rg cb ai store).1
    ∧ (regenerate_api_key sha tok2 auuid now2 true tenant
        (create_customer sha tok1 uuid now tenant wsid wsname subid rg cb ai store).2.2
        audits).result
      = .ok ⟨uuid, "soc_" ++ tok2, "New API key generated."⟩
    ∧ get_customer_by_api_key sha
        (regenerate_api_key sha tok2 auuid now2 true tenant
          (create_customer sha tok1 uuid now tenant wsid wsname subid rg cb ai store).2.2
          audits).customers
        ("soc_" ++ tok2)
      = some { (create_customer sha tok1 uuid now tenant wsid wsname subid rg cb ai store).1
          with api_key_hash := sha ("soc_" ++ tok2), updated_at := now2 }
    ∧ get_customer_by_api_key sha
        (regenerate_api_key sha tok2 auuid now2 true tenant
          (create_customer sha tok1 uuid now tenant wsid wsname subid rg cb ai store).2.2
          audits).customers
        ("soc_" ++ tok1)
      = none
    ∧ ∀ c ∈ (regenerate_api_key sha tok2 auuid now2 true tenant
          (create_customer sha tok1 uuid now tenant wsid wsname subid rg cb ai store).2.2
          audits).customers,
        c.api_key_hash ≠ sha ("soc_" ++ tok1) := by
  have hC2 : (create_customer sha tok1 uuid now tenant wsid wsname subid rg cb ai store).2.2
      = store ++ [(create_customer sha tok1 uuid now tenant wsid wsname subid rg cb ai store).1] :=
    rfl
  generalize hCdef :
    (create_customer sha tok1 uuid now tenant wsid wsname subid rg cb ai store).1 = C at *
  have hChash : C.api_key_hash = sha ("soc_" ++ tok1) := by rw [← hCdef]; rfl
  have hCt : C.tenant_id = tenant := by rw [← hCdef]; rfl
  have hCid : C.id = uuid := by rw [← hCdef]; rfl
  have hCst : C.status = "active" := by rw [← hCdef]; rfl
  rw [hC2]
  -- the regenerated record
  have htl : get_customer_by_tenant (store ++ [C]) tenant = some C :=
    get_by_tenant_append store C tenant htenant hCt
  have hany : (store ++ [C]).any (fun c => c.id == C.id) = true := by
    rw [List.any_eq_true]
    exact ⟨C, by simp, by simp⟩
  have hmapeq : (store ++ [C]).map (fun c =>
      if c.id == C.id then
        { c with api_key_hash := sha ("soc_" ++ tok2), updated_at := now2 }
      else c)
      = store ++ [{ C with api_key_hash := sha ("soc_" ++ tok2), updated_at := now2 }] := by
    rw [List.map_append]
    congr 1
    · rw [show (store.map (fun c =>
        if c.id == C.id then
          { c with api_key_hash := sha ("soc_" ++ tok2), updated_at := now2 }
        else c)) = store.map id from List.map_congr_left ?_, List.map_id]
      intro x hx
      have : x.id ≠ C.id := by rw [hCid]; exact hid x hx
      simp [this]
    · simp
  have hupd : update_customer_api_key (store ++ [C]) C.id (sha ("soc_" ++ tok2)) now2
      = .ok (store ++ [{ C with api_key_hash := sha ("soc_" ++ tok2), updated_at := now2 }]) := by
    rw [← hmapeq]
    simp [update_customer_api_key, hany]
  have hreg : regenerate_api_key sha tok2 auuid now2 true tenant (store ++ [C]) audits
      = ⟨.ok ⟨C.id, "soc_" ++ tok2, "New API key generated."⟩,
          store ++ [{ C with api_key_hash := sha ("soc_" ++ tok2), updated_at := now2 }],
          (log_audit_event auuid now2 C.id "api_key_regenerated"
            [("tenant_id", tenant)] none audits).2⟩ := by
    simp [regenerate_api_key, htl, hupd]
  refine ⟨?_, ?_, ?_, ?_, ?_⟩
  · exact get_by_api_key_append_fresh sha store C ("soc_" ++ tok1)
      (pyStartsWithSoc_socKey tok1) (socKey_isEmpty_false tok1) hfresh1 hChash hCst
  · rw [hreg, hCid]
  · rw [hreg]
    exact get_by_api_key_append_fresh sha store _ ("soc_" ++ tok2)
      (pyStartsWithSoc_socKey tok2) (socKey_isEmpty_false tok2) hfresh2 rfl hCst
  · rw [hreg]
    apply get_by_key_none_of_no_match
    intro c hc
    rcases List.mem_append.mp hc with h | h
    · exact fun hx => hfresh1 c h hx.1
    · have : c = { C with api_key_hash := sha ("soc_" ++ tok2), updated_at := now2 } := by
        simpa using h
      rw [this]
      exact fun hx => hdiff hx.1
  · rw [hreg]
    intro c hc
    rcases List.mem_append.mp hc with h | h
    · exact hfresh1 c h
    · have : c = { C with api_key_hash := sha ("soc_" ++ tok2), updated_at := now2 } := by
        simpa using h
      rw [this]
      exact hdiff

/-- C5 witness: a concrete create-then-regenerate run over a store holding one
unrelated customer: the first key resolves after creation, the regeneration
succeeds, and the first key no longer resolves afterwards. -/
theorem C5_witness :
    get_customer_by_api_key (fun s => s)
        (create_customer (fun s => s) "k1" "u2" "n1" "t2" "w" "wn" "s" "rg" none true
          [c9_existing]).2.2 ("soc_" ++ "k1")
      = some (create_customer (fun s => s) "k1" "u2" "n1" "t2" "w" "wn" "s" "rg" none true
          [c9_existing]).1
    ∧ (regenerate_api_key (fun s => s) "k2" "a2" "n2" true "t2"
        (create_customer (fun s => s) "k1" "u2" "n1" "t2" "w" "wn" "s" "rg" none true
          [c9_existing]).2.2 []).result
      = .ok ⟨"u2", "soc_" ++ "k2", "New API key generated."⟩
    ∧ get_customer_by_api_key (fun s => s)
        (regenerate_api_key (fun s => s) "k2" "a2" "n2" true "t2"
          (create_customer (fun s => s) "k1" "u2" "n1" "t2" "w" "wn" "s" "rg" none true
            [c9_existing]).2.2 []).customers ("soc_" ++ "k1")
      = none :=
  ⟨(C5_key_lifecycle (fun s => s) "k1" "k2" "u2" "a2" "n1" "n2" "t2" "w" "wn" "s" "rg"
      none true [c9_existing] [] (by decide) (by decide) (by decide) (by decide)
      (by decide)).1,
   (C5_key_lifecycle (fun s => s) "k1" "k2" "u2" "a2" "n1" "n2" "t2" "w" "wn" "s" "rg"
      none true [c9_existing] [] (by decide) (by decide) (by decide) (by decide)
      (by decide)).2.1,
   (C5_key_lifecycle (fun s => s) "k1" "k2" "u2" "a2" "n1" "n2" "t2" "w" "wn" "s" "rg"
      none true [c9_existing] [] (by decide) (by decide) (by decide) (by decide)
      (by decide)).2.2.2.1⟩

/-- The outer loop of `list_workspaces` never reads the subscription `state`
field: rewriting every state leaves the run unchanged. -/
theorem list_workspaces_go_state_irrelevant (wsList : String → Nat × List WsRaw)
    (sol onb : String → String → String → Nat) (f : Subscription → Option String) :
    ∀ (subs : List Subscription) (acc : List WorkspaceInfo × List String),
      list_workspaces_go wsList sol onb
        (subs.map (fun s => { s with state := f s })) acc
        = list_workspaces_go wsList sol onb subs acc := by
  intro subs
  induction subs with
  | nil => intro acc; rfl
  | cons sub rest ih =>
    intro acc
    have e1 : ∀ s : Subscription,
        ({ s with state := f s }).subscriptionId = s.subscriptionId := fun _ => rfl
    have e2 : ∀ s : Subscription,
        ({ s with state := f s }).displayName = s.displayName := fun _ => rfl
    simp only [List.map_cons, list_workspaces_go, e1, e2, ih]

/-- C7 counterexample: `list_workspaces` happily probes and returns the
workspaces of a subscription whose state is "Disabled" — the loop at
onboarding.py line 163 walks every subscription of the response and never
consults `state` (the Enabled filter exists only in `list_subscriptions`,
line 463). -/
theorem C7_counterexample :
    (⟨"s1", some "SubOne", some "Disabled"⟩ : Subscription).state = some "Disabled"
    ∧ list_workspaces 200 [⟨"s1", some "SubOne", some "Disabled"⟩]
        (fun _ => (200, [⟨"/subscriptions/s1/resourceGroups/rg1/providers/w", "w1",
          "cid1", "eastus"⟩]))
        (fun _ _ _ => 404) (fun _ _ _ => 404)
      = .ok ([⟨"s1", "SubOne", "rg1", "w1", "cid1", "eastus", false⟩], []) := by decide

/-- C7 amended: `list_workspaces` enumerates workspaces for EVERY subscription
returned by the cloud API regardless of its state (the run is invariant under
arbitrary rewriting of every subscription state); the state filter to Enabled
exists only in the separate `list_subscriptions` endpoint, whose output
contains Enabled subscriptions only. -/
theorem C7_list_workspaces_ignores_state :
    (∀ (subs : List Subscription) (f : Subscription → Option String)
       (wsList : String → Nat × List WsRaw) (sol onb : String → String → String → Nat),
      list_workspaces 200 (subs.map (fun s => { s with state := f s })) wsList sol onb
        = list_workspaces 200 subs wsList sol onb)
    ∧ (∀ (subs_status : Nat) (subs : List Subscription) (l : List SubscriptionInfo)
        (x : SubscriptionInfo),
        list_subscriptions subs_status subs = .ok l → x ∈ l →
        x.state = "Enabled") := by
  constructor
  · intro subs f wsList sol onb
    simp only [list_workspaces]
    rw [if_neg (by omega), if_neg (by omega)]
    exact list_workspaces_go_state_irrelevant wsList sol onb f subs ([], [])
  · intro subs_status subs l x h hx
    simp only [list_subscriptions] at h
    by_cases hs : subs_status ≠ 200
    · rw [if_pos hs] at h
      cases h
    · rw [if_neg hs] at h
      have hl : (subs.filter (fun s => s.state == some "Enabled")).map (fun s =>
          (⟨s.subscriptionId, s.displayName.getD s.subscriptionId,
            s.state.getD "Unknown"⟩ : SubscriptionInfo)) = l := by
        exact Except.ok.inj h
      rw [← hl] at hx
      rcases List.mem_map.mp hx with ⟨s, hsin, hmk⟩
      have hstate : s.state = some "Enabled" := by
        have := (List.mem_filter.mp hsin).2
        simpa using this
      rw [← hmk]
      simp [hstate]

/-- C7 witness of the amended statement: rewriting the one (Disabled) state to
Enabled does not change the `list_workspaces` run, and a mixed
Enabled/Disabled list run through `list_subscriptions` yields an entry whose
state is Enabled. -/
theorem C7_witness :
    list_workspaces 200 (([⟨"s1", some "SubOne", some "Disabled"⟩] : List Subscription).map
        (fun s => { s with state := some "Enabled" }))
        (fun _ => (200, [])) (fun _ _ _ => 404) (fun _ _ _ => 404)
      = list_workspaces 200 [⟨"s1", some "SubOne", some "Disabled"⟩]
        (fun _ => (200, [])) (fun _ _ _ => 404) (fun _ _ _ => 404)
    ∧ (⟨"s1", "A", "Enabled"⟩ : SubscriptionInfo).state = "Enabled" :=
  ⟨C7_list_workspaces_ignores_state.1 [⟨"s1", some "SubOne", some "Disabled"⟩]
      (fun _ => some "Enabled") (fun _ => (200, [])) (fun _ _ _ => 404) (fun _ _ _ => 404),
   C7_list_workspaces_ignores_state.2 200
      [⟨"s1", some "A", some "Enabled"⟩, ⟨"s2", some "B", some "Disabled"⟩]
      [⟨"s1", "A", "Enabled"⟩] ⟨"s1", "A", "Enabled"⟩ (by decide) (by decide)⟩

/-- C8 counterexample: with identical inputs and identical generated values,
the two variants do NOT return the same observable payload: the document-store
variant returns 14 fields including `api_key_hash` (cosmos_service.py line 70
returns the whole stored document plus the raw key), while the
relational-store variant returns 8 fields and no hash
(postgres_customer_service.py lines 117-126). -/
theorem C8_counterexample :
    ((cosmos_create_payload (fun s => s) "tok" "u1" "now" "t1" "wid" "wn" "sid" "rg"
        none true).map Prod.fst
      ≠ ((pg_create_customer (fun s => s) "tok" "u1" "now" "t1" "wid" "wn" "sid" "rg"
          none true []).1.map Prod.fst))
    ∧ payloadGet (cosmos_create_payload (fun s => s) "tok" "u1" "now" "t1" "wid" "wn"
        "sid" "rg" none true) "api_key_hash" = some (.s "soc_tok")
    ∧ payloadGet ((pg_create_customer (fun s => s) "tok" "u1" "now" "t1" "wid" "wn"
        "sid" "rg" none true []).1) "api_key_hash" = none := by decide

/-- C8 amended: the two repository variants agree on the shared observable
core: with the same inputs and generated values, creation payloads agree on
the eight fields the relational variant returns (id, tenant_id, workspace_id,
workspace_name, subscription_id, resource_group, api_key, status), both report
status active and a raw key of the generated soc_ shape; tenant lookup after
creation agrees on the seven shared fields; and key regeneration overwrites
the stored hash with the sha256 of the new soc_ key in both variants.  The
document variant additionally exposes hash/timestamps/flags fields the
relational variant does not return. -/
theorem C8_common_core_agreement
    (sha : String → String) (tok uuid now tenant wsid wsname subid rg : String)
    (cb : Option String) (ai : Bool) :
    (∀ k ∈ (["id", "tenant_id", "workspace_id", "workspace_name", "subscription_id",
             "resource_group", "api_key", "status"] : List String),
      payloadGet (cosmos_create_payload sha tok uuid now tenant wsid wsname subid rg cb ai) k
        = payloadGet (pg_create_customer sha tok uuid now tenant wsid wsname subid rg cb ai
            []).1 k)
    ∧ payloadGet (cosmos_create_payload sha tok uuid now tenant wsid wsname subid rg cb ai)
        "api_key" = some (.s ("soc_" ++ tok))
    ∧ payloadGet (pg_create_customer sha tok uuid now tenant wsid wsname subid rg cb ai []).1
        "status" = some (.s "active")
    ∧ pg_get_customer_by_tenant
        (pg_create_customer sha tok uuid now tenant wsid wsname subid rg cb ai []).2 tenant
      = some (cosmos_tenant_payload7
          (create_customer sha tok uuid now tenant wsid wsname subid rg cb ai []).1)
    ∧ (∀ (rows rows2 : List PgCustomerRow) (raw cid tok2 now2 : String),
        pg_regenerate_api_key sha tok2 now2 cid rows = .ok (raw, rows2) →
        raw = "soc_" ++ tok2
        ∧ ∀ r ∈ rows2, r.id = cid → r.api_key_hash = sha ("soc_" ++ tok2))
    ∧ (∀ (store store2 : List Customer) (cid tok2 now2 : String),
        update_customer_api_key store cid (sha ("soc_" ++ tok2)) now2 = .ok store2 →
        ∀ c ∈ store2, c.id = cid → c.api_key_hash = sha ("soc_" ++ tok2)) := by
  refine ⟨?_, rfl, rfl, ?_, ?_, ?_⟩
  · intro k hk
    fin_cases hk <;> rfl
  · simp [pg_get_customer_by_tenant, pg_create_customer, pg_generate_api_key,
      cosmos_tenant_payload7, create_customer, generate_api_key]
  · intro rows rows2 raw cid tok2 now2 h
    simp only [pg_regenerate_api_key] at h
    by_cases ha : rows.any (fun r => r.id == cid) = true
    · rw [if_pos ha] at h
      have hp := Except.ok.inj h
      have hraw : raw = "soc_" ++ tok2 := by
        have := congrArg Prod.fst hp
        simpa [pg_generate_api_key] using this.symm
      refine ⟨hraw, ?_⟩
      intro r hr hrid
      have hrows2 : rows2 = rows.map (fun r =>
          if r.id == cid then
            { r with api_key_hash := (pg_generate_api_key sha tok2).2.1,
                     api_key_pfx := (pg_generate_api_key sha tok2).2.2,
                     updated_at := now2 }
          else r) := by
        have := congrArg Prod.snd hp
        exact this.symm
      rw [hrows2] at hr
      rcases List.mem_map.mp hr with ⟨r0, hr0, hfr⟩
      by_cases hid0 : (r0.id == cid) = true
      · rw [if_pos hid0] at hfr
        rw [← hfr]
        rfl
      · rw [if_neg hid0] at hfr
        exfalso
        rw [← hfr] at hrid
        exact hid0 (by simp [hrid])
    · rw [if_neg ha] at h
      cases h
  · intro store store2 cid tok2 now2 h
    simp only [update_customer_api_key] at h
    by_cases ha : store.any (fun c => c.id == cid) = true
    · rw [if_pos ha] at h
      have hst : store2 = store.map (fun c =>
          if c.id == cid then
            { c with api_key_hash := sha ("soc_" ++ tok2), updated_at := now2 }
          else c) :=
        (Except.ok.inj h).symm
      intro c hc hcid
      rw [hst] at hc
      rcases List.mem_map.mp hc with ⟨c0, hc0, hfc⟩
      by_cases hid0 : (c0.id == cid) = true
      · rw [if_pos hid0] at hfc
        rw [← hfc]
      · rw [if_neg hid0] at hfc
        exfalso
        rw [← hfc] at hcid
        exact hid0 (by simp [hcid])
    · rw [if_neg ha] at h
      cases h

/-- C8 witness: at concrete inputs the shared api_key field agrees across the
two creation payloads, and the post-creation tenant lookups agree on the
shared projection. -/
theorem C8_witness :
    payloadGet (cosmos_create_payload (fun s => s) "tok" "u1" "now" "t1" "wid" "wn"
        "sid" "rg" none true) "api_key"
      = payloadGet ((pg_create_customer (fun s => s) "tok" "u1" "now" "t1" "wid" "wn"
          "sid" "rg" none true []).1) "api_key"
    ∧ pg_get_customer_by_tenant
        (pg_create_customer (fun s => s) "tok" "u1" "now" "t1" "wid" "wn" "sid" "rg"
          none true []).2 "t1"
      = some (cosmos_tenant_payload7
          (create_customer (fun s => s) "tok" "u1" "now" "t1" "wid" "wn" "sid" "rg"
            none true []).1) :=
  ⟨(C8_common_core_agreement (fun s => s) "tok" "u1" "now" "t1" "wid" "wn" "sid" "rg"
      none true).1 "api_key" (by decide),
   (C8_common_core_agreement (fun s => s) "tok" "u1" "now" "t1" "wid" "wn" "sid" "rg"
      none true).2.2.2.1⟩

/-- C4 witness: with the role assignment answering 409 and the rule PUT
answering 201, the rule is created with no warning recorded; with the rule PUT
answering 500 the call fails. -/
theorem C4_witness :
    (create_automation_rule ⟨"s1", "rg1", "w1", "la1", "t1"⟩ "tok" 409 201).warnings = []
    ∧ (create_automation_rule ⟨"s1", "rg1", "w1", "la1", "t1"⟩ "tok" 409 201).result
      = .ok ⟨"SOC-T0-Auto-Analyze-tok", "created", "Automation rule created successfully."⟩
    ∧ (create_automation_rule ⟨"s1", "rg1", "w1", "la1", "t1"⟩ "tok" 200 500).result
      = .error (.http 400 "Failed to create automation rule") :=
  ⟨C4_automation_rule_policy.2.2.1 ⟨"s1", "rg1", "w1", "la1", "t1"⟩ "tok" 409 201 (by decide),
   (C4_automation_rule_policy.2.2.2.2 ⟨"s1", "rg1", "w1", "la1", "t1"⟩ "tok" 409 201
      (Or.inr (Or.inl rfl))).trans (by decide),
   C4_automation_rule_policy.2.2.2.1 ⟨"s1", "rg1", "w1", "la1", "t1"⟩ "tok" 200 500
      (by decide) (by decide) (by decide)⟩

end Soc
